import Mathlib

set_option maxRecDepth 16384

/-!
Verification development for the `mcp_fondu_search_user_context` server.

The first part shallowly embeds `server.py` (the revision present in the
repository checkout): the outbound HTTP helper `make_fondu_api_request`,
the MCP tool `gather_relevant_user_knowledge`, and the FastAPI route
handler `handle_mcp_request`.  Python values flowing through the tool are
modelled by an inductive `Json` type; Python runtime behaviours the code
relies on (`dict.get`, truthiness, `str()`, iteration, raised exceptions)
are modelled by explicit total functions, with raised exceptions modelled
by `Except`.

The second part models, from the specification, the credential-resolution
chain and the DID-challenge profile endpoint of the latest revision of the
server, which is not part of the checked-out sources.
-/

/-- A Python/JSON value as it appears in the tool: `None`, booleans,
(integer) numbers, strings, lists and dicts. -/
inductive Json where
  | null : Json
  | bool : Bool → Json
  | num : Int → Json
  | str : String → Json
  | arr : List Json → Json
  | obj : List (String × Json) → Json

instance : Inhabited Json := ⟨Json.null⟩

/-- First-match association lookup, modelling a Python dict lookup. -/
def objLookup (kvs : List (String × Json)) (k : String) : Option Json :=
  match kvs with
  | [] => none
  | (k0, v) :: rest => if k0 = k then some v else objLookup rest k

/-- A single-quote character, used by Python `repr` of strings. -/
def pyQuote : String := String.singleton (Char.ofNat 39)

/-- Opening brace character of a Python dict display. -/
def pyLBrace : String := String.singleton (Char.ofNat 123)

/-- Closing brace character of a Python dict display. -/
def pyRBrace : String := String.singleton (Char.ofNat 125)

mutual

/-- Python `repr` of a value (as used inside list/dict displays). -/
def pyRepr : Json → String
  | Json.null => "None"
  | Json.bool true => "True"
  | Json.bool false => "False"
  | Json.num n => toString n
  | Json.str s => pyQuote ++ s ++ pyQuote
  | Json.arr xs => "[" ++ pyReprList xs ++ "]"
  | Json.obj kvs => pyLBrace ++ pyReprPairs kvs ++ pyRBrace

/-- Comma-separated `repr`s of list elements. -/
def pyReprList : List Json → String
  | [] => ""
  | [x] => pyRepr x
  | x :: y :: rest => pyRepr x ++ ", " ++ pyReprList (y :: rest)

/-- Comma-separated `repr`s of dict entries. -/
def pyReprPairs : List (String × Json) → String
  | [] => ""
  | [(k, v)] => pyQuote ++ k ++ pyQuote ++ ": " ++ pyRepr v
  | (k, v) :: p :: rest =>
      pyQuote ++ k ++ pyQuote ++ ": " ++ pyRepr v ++ ", " ++ pyReprPairs (p :: rest)

end

/-- Python `str()` of a value: the string itself for strings, `repr`-style
display for everything else (f-string interpolation semantics). -/
def pyStr (j : Json) : String :=
  match j with
  | Json.str s => s
  | j => pyRepr j

/-- Python truthiness of a value (`if text:`). -/
def pyTruthy : Json → Bool
  | Json.null => false
  | Json.bool b => b
  | Json.num n => !(n == 0)
  | Json.str s => !(s == "")
  | Json.arr xs => !xs.isEmpty
  | Json.obj kvs => !kvs.isEmpty

/-- Python `value == 0` (true for the number `0` and for `False`). -/
def pyEqZero : Json → Bool
  | Json.num n => n == 0
  | Json.bool b => !b
  | _ => false

/-- Python `value.get(key, default)`: a dict lookup with default; calling
`.get` on a non-dict raises `AttributeError`, modelled as `Except.error`. -/
def pyGet (j : Json) (k : String) (d : Json) : Except String Json :=
  match j with
  | Json.obj kvs => Except.ok ((objLookup kvs k).getD d)
  | _ => Except.error ("AttributeError: value has no attribute get (key " ++ k ++ ")")

/-- Python iteration (`for x in v`): lists yield their elements, strings
their one-character substrings, dicts their keys; other values raise
`TypeError`, modelled as `Except.error`. -/
def pyIter : Json → Except String (List Json)
  | Json.arr xs => Except.ok xs
  | Json.str s => Except.ok (s.toList.map (fun c => Json.str (String.singleton c)))
  | Json.obj kvs => Except.ok (kvs.map (fun kv => Json.str kv.1))
  | _ => Except.error "TypeError: value is not iterable"

/-- `NEXT_PUBLIC_API_HOST` from `server.py`. -/
def NEXT_PUBLIC_API_HOST : String := "https://api.youfondu.com"

/-- An outbound HTTP request as assembled by `make_fondu_api_request`:
URL, method, header list, JSON body and timeout (in seconds). -/
structure HttpRequest where
  url : String
  method : String
  headers : List (String × String)
  body : Json
  timeout : Nat

/-- The behaviour of the network on one outbound request: either an
exception escaping the client call (connection error, timeout, ...), or an
HTTP response with a status code and a body whose JSON decoding may fail. -/
inductive RemoteOutcome where
  | exn : String → RemoteOutcome
  | response : Nat → Except String Json → RemoteOutcome

/-- Result of one `make_fondu_api_request` call: the request that was
actually sent (none when the method is unsupported), the parsed JSON
response (`none` on any failure, as the Python function returns `None`),
and the error-log lines written. -/
structure ApiCallResult where
  request : Option HttpRequest
  response : Option Json
  log : List String

/-- The headers `make_fondu_api_request` attaches to every request. -/
def fonduHeaders : List (String × String) :=
  [("Accept", "application/json"), ("Content-Type", "application/json")]

/-- Python `method.upper()` (ASCII uppercase). -/
def strUpper (s : String) : String := String.mk (s.toList.map Char.toUpper)

/-- `response.raise_for_status()` passes exactly on 2xx statuses. -/
def is2xx (status : Nat) : Bool := decide (200 ≤ status) && decide (status ≤ 299)

/-- The two log lines the `except` branch of `make_fondu_api_request`
writes (`logging.error` and the `error_log` sink). -/
def apiErrorLog (cause : String) : List String :=
  ["Error in API request: " ++ cause, "ERROR: " ++ cause ++ "\n"]

/-- Handling of the network outcome inside the `try` of
`make_fondu_api_request`: `raise_for_status` on non-2xx, then JSON
decoding; any raised exception is caught, logged, and turns into `None`. -/
def apiOutcome (req : HttpRequest) (o : RemoteOutcome) : ApiCallResult :=
  match o with
  | RemoteOutcome.exn cause =>
      { request := some req, response := none, log := apiErrorLog cause }
  | RemoteOutcome.response status body =>
      if is2xx status then
        match body with
        | Except.ok j => { request := some req, response := some j, log := [] }
        | Except.error cause =>
            { request := some req, response := none, log := apiErrorLog cause }
      else
        { request := some req, response := none,
          log := apiErrorLog ("HTTPStatusError: " ++ toString status) }

/-- Embedding of `make_fondu_api_request(url, method, json_data)`:
builds the request (headers `fonduHeaders`, timeout 30, JSON body on POST),
sends it through the ambient network behaviour `net`, and returns the
parsed JSON or `none` with the failure logged; unsupported methods send
nothing and log an error. -/
def make_fondu_api_request (url : String) (method : String) (json_data : Json)
    (net : HttpRequest → RemoteOutcome) : ApiCallResult :=
  let m := strUpper method
  if m == "GET" then
    let req : HttpRequest :=
      { url := url, method := m, headers := fonduHeaders, body := Json.null, timeout := 30 }
    apiOutcome req (net req)
  else if m == "POST" then
    let req : HttpRequest :=
      { url := url, method := m, headers := fonduHeaders, body := json_data, timeout := 30 }
    apiOutcome req (net req)
  else
    { request := none, response := none, log := ["Unsupported HTTP method: " ++ method] }

/-- The search endpoint URL assembled by `gather_relevant_user_knowledge`. -/
def searchEndpoint : String := NEXT_PUBLIC_API_HOST ++ "/v1/knowledge/search_knowledge_vault"

/-- The request payload assembled by `gather_relevant_user_knowledge`. -/
def searchPayload (query keywords : String) (top_k : Int) : Json :=
  Json.obj [("query", Json.str query), ("keywords", Json.str keywords),
            ("top_k", Json.num top_k)]

/-- The one API call `gather_relevant_user_knowledge` makes. -/
def gatherCall (query keywords : String) (top_k : Int)
    (net : HttpRequest → RemoteOutcome) : ApiCallResult :=
  make_fondu_api_request searchEndpoint "POST" (searchPayload query keywords top_k) net

/-- Loop body of the result-formatting loop: one numbered entry for the
result at (1-based) position `i`; dict results get their `text`, `source`
and `metadata` fields when truthy, any other result is interpolated
directly. -/
def formatResult (i : Nat) (result : Json) : String :=
  match result with
  | Json.obj kvs =>
      let text := (objLookup kvs "text").getD (Json.str "")
      let source := (objLookup kvs "source").getD (Json.str "")
      let metadata := (objLookup kvs "metadata").getD (Json.obj [])
      toString i ++ ". "
        ++ (if pyTruthy text then pyStr text ++ "\n" else "")
        ++ (if pyTruthy source then "Source: " ++ pyStr source ++ "\n" else "")
        ++ (if pyTruthy metadata then "Metadata: " ++ pyStr metadata ++ "\n" else "")
        ++ "\n"
  | r => toString i ++ ". " ++ pyStr r ++ "\n" ++ "\n"

/-- The formatting loop `for i, result in enumerate(results, i0)`. -/
def formatAll (i0 : Nat) (results : List Json) : List String :=
  match results with
  | [] => []
  | r :: rest => formatResult i0 r :: formatAll (i0 + 1) rest

/-- The digest heading `"Found {count} relevant results ..."`. -/
def foundHeaderFor (count : Json) : String :=
  "Found " ++ pyStr count ++ " relevant results in your knowledge vault:\n\n"

/-- The `try` block of `gather_relevant_user_knowledge`: make the API
call; on `None` return the transport-error string; otherwise read
`results` and `count` (Python `.get`, which raises on a non-dict
response), return the no-results string when `count == 0`, and otherwise
the numbered digest.  A raised exception is an `Except.error`. -/
def gatherBody (query keywords : String) (top_k : Int)
    (net : HttpRequest → RemoteOutcome) : Except String String :=
  match (gatherCall query keywords top_k net).response with
  | none => Except.ok "Error: Failed to get a response from the knowledge vault API."
  | some response => do
      let results ← pyGet response "results" (Json.arr [])
      let count ← pyGet response "count" (Json.num 0)
      if pyEqZero count then
        Except.ok "No relevant information found in your knowledge vault."
      else do
        let rs ← pyIter results
        Except.ok (foundHeaderFor count ++ String.join (formatAll 1 rs))

/-- Embedding of the tool `gather_relevant_user_knowledge(query, keywords,
top_k)`: the `try` body wrapped in the `except Exception` handler, which
turns any raised exception into a normal string return.  The result type
still allows an escaping exception (`Except.error`), so totality of the
handler is a provable property, not a typing artifact. -/
def gather_relevant_user_knowledge (query keywords : String) (top_k : Int)
    (net : HttpRequest → RemoteOutcome) : Except String String :=
  match gatherBody query keywords top_k net with
  | Except.ok s => Except.ok s
  | Except.error e => Except.ok ("Error performing knowledge vault search: " ++ e)

/-- Embedding of the FastAPI route `handle_mcp_request`: `request.json()`
and `mcp.process_json_request(body)` are external collaborators that
either produce a JSON value or raise; any raised exception yields status
500 with an error body, a successful result is returned with status 200. -/
def handle_mcp_request (parseBody : Except String Json)
    (process : Json → Except String Json) : Nat × Json :=
  match parseBody with
  | Except.error e => (500, Json.obj [("error", Json.str e)])
  | Except.ok body =>
      match process body with
      | Except.ok result => (200, result)
      | Except.error e => (500, Json.obj [("error", Json.str e)])

/-! ## Components of the latest revision, modelled from the specification

The checked-out sources hold an earlier revision of the server; the
credential-resolution chain and the DID challenge handshake of the
latest revision are not under `src/` and are modelled here from the
specification. -/

/-- Modelled from the spec: the environment-variable credential source of
the Credential Resolver (missing from `src/`): the first of the two
recognized variable names, `FONDU_AUTH_TOKEN` then `FONDU_API_TOKEN`. -/
def envToken (envLookup : String → Option String) : Option String :=
  match envLookup "FONDU_AUTH_TOKEN" with
  | some v => some v
  | none => envLookup "FONDU_API_TOKEN"

/-- Modelled from the spec: the ordered config-file search path of the
Credential Resolver (missing from `src/`). -/
def configPaths : List String :=
  ["./config.yaml", "./config.json", "~/.fondu/config.yaml", "~/.config/fondu/config.yaml"]

/-- Modelled from the spec: the ordered token-file search path of the
Credential Resolver (missing from `src/`). -/
def tokenFilePaths : List String :=
  ["~/.fondu/token", "~/.config/fondu/token", "./.fondu_token"]

/-- First path in the list for which the read succeeds; a failed read
(missing file, I/O or parse error, absent key) is `none` and resolution
falls through to the next path. -/
def firstHit (read : String → Option String) : List String → Option String
  | [] => none
  | p :: rest =>
      match read p with
      | some v => some v
      | none => firstHit read rest

/-- Modelled from the spec: the explicit-argument credential source of
the Credential Resolver (missing from `src/`): a non-empty string
argument, used verbatim. -/
def explicitSource (explicitTok : Option String) : Option String :=
  match explicitTok with
  | some t => if t == "" then none else some t
  | none => none

/-- Modelled from the spec: the config-file credential source of the
Credential Resolver (missing from `src/`): the first existing, parseable
config file that yields a token value; `readConfig` abstracts
existence + parsing + key lookup, with every failure collapsed to
`none`. -/
def configSource (readConfig : String → Option String) : Option String :=
  firstHit readConfig configPaths

/-- Modelled from the spec: the token-file credential source of the
Credential Resolver (missing from `src/`): contents of the first existing
token file, whitespace-trimmed. -/
def tokenFileSource (readTokenFile : String → Option String) : Option String :=
  (firstHit readTokenFile tokenFilePaths).map String.trim

/-- Modelled from the spec: `resolve(explicit_token?)` of the Credential
Resolver (missing from `src/`): the four sources tried in precedence
order explicit > environment > config file > token file, `none` when all
four are absent. -/
def resolveToken (explicitTok : Option String)
    (envLookup readConfig readTokenFile : String → Option String) : Option String :=
  match explicitSource explicitTok with
  | some t => some t
  | none =>
      match envToken envLookup with
      | some t => some t
      | none =>
          match configSource readConfig with
          | some t => some t
          | none => tokenFileSource readTokenFile

/-- Modelled from the spec: a Session of the Challenge/Session Store
(missing from `src/`): challenge identifier, challenge secret, and the
agent DID set only once verification succeeds. -/
structure Session where
  challenge_id : Nat
  challenge : String
  agent_did : Option String

/-- Modelled from the spec: the process-lifetime Challenge/Session Store
(missing from `src/`), a monotonic identifier counter plus the session
map. -/
structure SessionStore where
  nextId : Nat
  sessions : List (Nat × Session)

/-- Modelled from the spec: `create(secret)` of the Challenge/Session
Store (missing from `src/`): allocate a fresh identifier, store a new
Session with that identifier and the secret, return the identifier. -/
def SessionStore.create (st : SessionStore) (secret : String) : Nat × SessionStore :=
  (st.nextId,
   { nextId := st.nextId + 1,
     sessions := (st.nextId,
       { challenge_id := st.nextId, challenge := secret, agent_did := none }) :: st.sessions })

/-- Modelled from the spec: `fetch(session_id)` of the Challenge/Session
Store (missing from `src/`): pure lookup. -/
def SessionStore.fetch (st : SessionStore) (sid : Nat) : Option Session :=
  match st.sessions.find? (fun kv => kv.1 == sid) with
  | some kv => some kv.2
  | none => none

mutual

/-- JSON encoding of a value, as used for the `WWW-Authenticate`
challenge payload. -/
def jsonEncode : Json → String
  | Json.null => "null"
  | Json.bool true => "true"
  | Json.bool false => "false"
  | Json.num n => toString n
  | Json.str s => "\"" ++ s ++ "\""
  | Json.arr xs => "[" ++ jsonEncodeList xs ++ "]"
  | Json.obj kvs => pyLBrace ++ jsonEncodePairs kvs ++ pyRBrace

/-- Comma-separated JSON encodings of list elements. -/
def jsonEncodeList : List Json → String
  | [] => ""
  | [x] => jsonEncode x
  | x :: y :: rest => jsonEncode x ++ ", " ++ jsonEncodeList (y :: rest)

/-- Comma-separated JSON encodings of object entries. -/
def jsonEncodePairs : List (String × Json) → String
  | [] => ""
  | [(k, v)] => "\"" ++ k ++ "\": " ++ jsonEncode v
  | (k, v) :: p :: rest =>
      "\"" ++ k ++ "\": " ++ jsonEncode v ++ ", " ++ jsonEncodePairs (p :: rest)

end

/-- An HTTP response of the profile endpoint: status, headers, JSON body. -/
structure HttpResponse where
  status : Nat
  headers : List (String × String)
  body : Json

/-- Modelled from the spec: the challenge payload minted by the profile
endpoint of the latest revision (missing from `src/`): the fresh
challenge identifier together with the challenge secret. -/
def profileChallenge (cid : Nat) (secret : String) : Json :=
  Json.obj [("challenge_id", Json.num (Int.ofNat cid)), ("challenge", Json.str secret)]

/-- Modelled from the spec: the no-`authorization`-header branch of the
`/v1/profile` handler of the latest revision (missing from `src/`): mint
a challenge via the store, answer 401 with the `WWW-Authenticate` header
and the error body carrying the challenge. -/
def profileNoAuth (st : SessionStore) (secret : String) : HttpResponse × SessionStore :=
  let created := st.create secret
  let ch := profileChallenge created.1 secret
  ({ status := 401,
     headers := [("WWW-Authenticate", "did_challenge " ++ jsonEncode ch)],
     body := Json.obj [("error", Json.str "Unauthorized"), ("challenge", ch)] },
   created.2)

/-- The `challenge` field of a profile response body, when present. -/
def bodyChallenge (r : HttpResponse) : Option Json :=
  match r.body with
  | Json.obj kvs => objLookup kvs "challenge"
  | _ => none

/-- The challenge identifier carried inside a profile response body. -/
def challengeIdOf (r : HttpResponse) : Option Json :=
  match bodyChallenge r with
  | some (Json.obj ckvs) => objLookup ckvs "challenge_id"
  | _ => none

/-- `listStartsWith s pat` holds when `pat` is an initial run of `s`. -/
def listStartsWith : List Char → List Char → Bool
  | _, [] => true
  | [], _ :: _ => false
  | c :: cs, d :: ds => c == d && listStartsWith cs ds

/-- `listHasSub s pat`: `pat` occurs contiguously somewhere in `s`. -/
def listHasSub : List Char → List Char → Bool
  | [], pat => listStartsWith [] pat
  | c :: rest, pat => listStartsWith (c :: rest) pat || listHasSub rest pat

/-- A computable occurs-in check on strings. -/
def mentions (s sub : String) : Bool := listHasSub s.toList sub.toList

/-- The outbound search request assembled by `gather_relevant_user_knowledge`. -/
def searchRequest (query keywords : String) (top_k : Int) : HttpRequest :=
  { url := searchEndpoint, method := "POST", headers := fonduHeaders,
    body := searchPayload query keywords top_k, timeout := 30 }

/-- The network outcomes on which `make_fondu_api_request` returns `None`:
an escaping exception, a non-2xx status, or a body that fails to decode. -/
def remoteFails : RemoteOutcome → Bool
  | RemoteOutcome.exn _ => true
  | RemoteOutcome.response _ (Except.error _) => true
  | RemoteOutcome.response status (Except.ok _) => !(is2xx status)

/-- The cause string `make_fondu_api_request` logs for a failing outcome
(`raise_for_status` fires before body decoding). -/
def failCause : RemoteOutcome → String
  | RemoteOutcome.exn c => c
  | RemoteOutcome.response status body =>
      if is2xx status then
        match body with
        | Except.error c => c
        | Except.ok _ => ""
      else "HTTPStatusError: " ++ toString status

/-! ## Shared lemmas -/

lemma gatherCall_eq (query keywords : String) (top_k : Int) (net : HttpRequest → RemoteOutcome) :
    gatherCall query keywords top_k net
      = apiOutcome (searchRequest query keywords top_k) (net (searchRequest query keywords top_k)) := rfl

lemma apiOutcome_request (req : HttpRequest) (o : RemoteOutcome) :
    (apiOutcome req o).request = some req := by
  cases o with
  | exn c => rfl
  | response status body => cases body <;> simp [apiOutcome] <;> split <;> rfl

lemma gatherCall_response_ok (query keywords : String) (top_k : Int) (status : Nat) (j : Json)
    (hs : is2xx status = true) :
    (gatherCall query keywords top_k
        (fun _ => RemoteOutcome.response status (Except.ok j))).response = some j := by
  rw [gatherCall_eq]
  simp [apiOutcome, hs]

/-! ## Claims about the checked-out revision -/

/-- C6: for every successful remote response parsed as a dict whose
`count` field is the number 0, the search tool returns the literal
no-results message, whatever the `results` field holds. -/
theorem count_zero_returns_no_results (query keywords : String) (top_k : Int)
    (status : Nat) (kvs : List (String × Json))
    (hs : is2xx status = true)
    (hc : objLookup kvs "count" = some (Json.num 0)) :
    gather_relevant_user_knowledge query keywords top_k
        (fun _ => RemoteOutcome.response status (Except.ok (Json.obj kvs)))
      = Except.ok "No relevant information found in your knowledge vault." := by
  have hresp := gatherCall_response_ok query keywords top_k status (Json.obj kvs) hs
  simp [gather_relevant_user_knowledge, gatherBody, hresp, pyGet, hc, pyEqZero,
    Bind.bind, Except.bind]

/-- C6 witness: a concrete 200 response with `count = 0` and a non-empty
`results` list yields the literal no-results message. -/
theorem count_zero_returns_no_results_witness :
    is2xx 200 = true
  ∧ objLookup [("results", Json.arr [Json.str "a"]), ("count", Json.num 0)] "count"
      = some (Json.num 0)
  ∧ gather_relevant_user_knowledge "q" "" 10
        (fun _ => RemoteOutcome.response 200
          (Except.ok (Json.obj [("results", Json.arr [Json.str "a"]), ("count", Json.num 0)])))
      = Except.ok "No relevant information found in your knowledge vault." :=
  ⟨by decide, rfl,
   count_zero_returns_no_results "q" "" 10 200
     [("results", Json.arr [Json.str "a"]), ("count", Json.num 0)] (by decide) rfl⟩

/-- C10: when the key `count` is absent from a successful dict response,
the tool returns the no-results message regardless of `results`: the
zero-result test reads `count` (defaulting to 0), never `len(results)`. -/
theorem missing_count_returns_no_results (query keywords : String) (top_k : Int)
    (status : Nat) (kvs : List (String × Json))
    (hs : is2xx status = true)
    (hc : objLookup kvs "count" = none) :
    gather_relevant_user_knowledge query keywords top_k
        (fun _ => RemoteOutcome.response status (Except.ok (Json.obj kvs)))
      = Except.ok "No relevant information found in your knowledge vault." := by
  have hresp := gatherCall_response_ok query keywords top_k status (Json.obj kvs) hs
  simp [gather_relevant_user_knowledge, gatherBody, hresp, pyGet, hc, pyEqZero,
    Bind.bind, Except.bind]

/-- C10 witness: a 200 response carrying three results but no `count`
key still yields the no-results message. -/
theorem missing_count_returns_no_results_witness :
    is2xx 200 = true
  ∧ objLookup [("results", Json.arr [Json.str "a", Json.str "b", Json.str "c"])] "count" = none
  ∧ gather_relevant_user_knowledge "q" "" 10
        (fun _ => RemoteOutcome.response 200
          (Except.ok (Json.obj [("results", Json.arr [Json.str "a", Json.str "b", Json.str "c"])])))
      = Except.ok "No relevant information found in your knowledge vault." :=
  ⟨by decide, rfl,
   missing_count_returns_no_results "q" "" 10 200
     [("results", Json.arr [Json.str "a", Json.str "b", Json.str "c"])] (by decide) rfl⟩

/-- C9: whatever the inputs and whatever the remote behaviour, the tool
returns a normal string: the handler turns every raised exception into an
ordinary return, so no exception escapes to the caller. -/
theorem gather_never_raises (query keywords : String) (top_k : Int)
    (net : HttpRequest → RemoteOutcome) :
    ∃ s : String, gather_relevant_user_knowledge query keywords top_k net = Except.ok s := by
  unfold gather_relevant_user_knowledge
  split
  · exact ⟨_, rfl⟩
  · exact ⟨_, rfl⟩

/-- C8: the `/api/mcp` handler answers either 200 with the MCP result of
processing the body, or 500 with an error-object body, on any failure of
body parsing or processing. -/
theorem mcp_request_result_or_500 (parseBody : Except String Json)
    (process : Json → Except String Json) :
    (∃ body result, parseBody = Except.ok body ∧ process body = Except.ok result ∧
        handle_mcp_request parseBody process = (200, result))
  ∨ (∃ e, handle_mcp_request parseBody process = (500, Json.obj [("error", Json.str e)])) := by
  cases parseBody with
  | error e => exact Or.inr ⟨e, rfl⟩
  | ok body =>
      cases hq : process body with
      | error e => exact Or.inr ⟨e, by simp [handle_mcp_request, hq]⟩
      | ok r => exact Or.inl ⟨body, r, rfl, hq, by simp [handle_mcp_request, hq]⟩

/-! ## Substring and formatting lemmas -/

lemma listStartsWith_append (pat rest : List Char) :
    listStartsWith (pat ++ rest) pat = true := by
  induction pat with
  | nil => simp [listStartsWith]
  | cons c cs ih => simp [listStartsWith, ih]

lemma listHasSub_mid (pre pat post : List Char) :
    listHasSub (pre ++ (pat ++ post)) pat = true := by
  induction pre with
  | nil =>
      simp only [List.nil_append]
      cases hpp : pat ++ post with
      | nil =>
          have hp : pat = [] := (List.append_eq_nil.mp hpp).1
          subst hp
          rfl
      | cons c l =>
          have h := listStartsWith_append pat post
          rw [hpp] at h
          simp [listHasSub, h]
  | cons c cs ih => simp [listHasSub, ih]

lemma mentions_mid (pre mid post : String) : mentions (pre ++ (mid ++ post)) mid = true := by
  simp [mentions, String.toList, String.data_append, listHasSub_mid]

lemma mentions_tail (pre mid : String) : mentions (pre ++ mid) mid = true := by
  have h := mentions_mid pre mid ""
  simpa using h

lemma apiErrorLog_mentions (c : String) :
    (apiErrorLog c).all (fun e => mentions e c) = true := by
  have h1 : mentions ("Error in API request: " ++ c) c = true := mentions_tail _ _
  have h2 : mentions ("ERROR: " ++ c ++ "\n") c = true := by
    rw [String.append_assoc]
    exact mentions_mid _ _ _
  simp [apiErrorLog, h1, h2]

lemma formatAll_length (i0 : Nat) (rs : List Json) :
    (formatAll i0 rs).length = rs.length := by
  induction rs generalizing i0 with
  | nil => rfl
  | cons r rest ih => simp [formatAll, ih]

lemma formatAll_getD (i0 i : Nat) (rs : List Json) (h : i < rs.length) :
    (formatAll i0 rs).getD i "" = formatResult (i0 + i) (rs.getD i Json.null) := by
  induction rs generalizing i0 i with
  | nil => simp at h
  | cons r rest ih =>
      cases i with
      | zero => simp [formatAll]
      | succ j =>
          have hj : j < rest.length := by simpa using h
          have hrec := ih (i0 + 1) j hj
          simp only [formatAll, List.getD_cons_succ]
          rw [hrec]
          congr 1
          omega

lemma formatResult_obj (n : Nat) (kvs : List (String × Json)) :
    formatResult n (Json.obj kvs)
      = toString n ++ ". "
        ++ ((if pyTruthy ((objLookup kvs "text").getD (Json.str "")) then
              pyStr ((objLookup kvs "text").getD (Json.str "")) ++ "\n" else "")
        ++ ((if pyTruthy ((objLookup kvs "source").getD (Json.str "")) then
              "Source: " ++ pyStr ((objLookup kvs "source").getD (Json.str "")) ++ "\n" else "")
        ++ ((if pyTruthy ((objLookup kvs "metadata").getD (Json.obj [])) then
              "Metadata: " ++ pyStr ((objLookup kvs "metadata").getD (Json.obj [])) ++ "\n" else "")
        ++ "\n"))) := by
  simp [formatResult, String.append_assoc]

lemma formatResult_scalar (n : Nat) (r : Json) (h : ∀ kvs, r ≠ Json.obj kvs) :
    formatResult n r = toString n ++ ". " ++ pyStr r ++ "\n" ++ "\n" := by
  cases r <;> first | rfl | exact absurd rfl (h _)

lemma formatResult_head (n : Nat) (r : Json) :
    ∃ rest, formatResult n r = toString n ++ ". " ++ rest := by
  cases r with
  | obj kvs => exact ⟨_, formatResult_obj n kvs⟩
  | null => exact ⟨pyStr Json.null ++ ("\n" ++ "\n"), by simp [formatResult, String.append_assoc]⟩
  | bool b => exact ⟨pyStr (Json.bool b) ++ ("\n" ++ "\n"), by simp [formatResult, String.append_assoc]⟩
  | num m => exact ⟨pyStr (Json.num m) ++ ("\n" ++ "\n"), by simp [formatResult, String.append_assoc]⟩
  | str s => exact ⟨pyStr (Json.str s) ++ ("\n" ++ "\n"), by simp [formatResult, String.append_assoc]⟩
  | arr xs => exact ⟨pyStr (Json.arr xs) ++ ("\n" ++ "\n"), by simp [formatResult, String.append_assoc]⟩

/-! ## Claims C5 and C7 -/

/-- C5: every failing outbound call (escaping exception, non-2xx status,
or undecodable body) makes the tool return the generic transport-failure
string rather than raising, and every line the call logs mentions the
underlying cause. -/
theorem transport_failure_generic_error (query keywords : String) (top_k : Int)
    (o : RemoteOutcome) (hf : remoteFails o = true) :
    (gather_relevant_user_knowledge query keywords top_k (fun _ => o)
      = Except.ok "Error: Failed to get a response from the knowledge vault API.")
  ∧ (gatherCall query keywords top_k (fun _ => o)).log = apiErrorLog (failCause o)
  ∧ (apiErrorLog (failCause o)).all (fun e => mentions e (failCause o)) = true := by
  refine ⟨?_, ?_, apiErrorLog_mentions _⟩ <;>
  · cases o with
    | exn c => rfl
    | response status body =>
        cases body with
        | error c =>
            by_cases h2 : is2xx status = true <;>
              simp [gather_relevant_user_knowledge, gatherBody, gatherCall_eq, apiOutcome,
                failCause, h2]
        | ok j =>
            have h2 : is2xx status = false := by
              simpa [remoteFails] using hf
            simp [gather_relevant_user_knowledge, gatherBody, gatherCall_eq, apiOutcome,
              failCause, h2]

/-- C5 witness: a concrete network exception yields the generic failure
string. -/
theorem transport_failure_generic_error_witness :
    remoteFails (RemoteOutcome.exn "connect timeout") = true
  ∧ gather_relevant_user_knowledge "q" "" 10 (fun _ => RemoteOutcome.exn "connect timeout")
      = Except.ok "Error: Failed to get a response from the knowledge vault API." :=
  ⟨rfl, (transport_failure_generic_error "q" "" 10 (RemoteOutcome.exn "connect timeout") rfl).1⟩

/-- C7: on a successful response with a nonzero `count` and a `results`
list, the digest is the heading followed by one entry per result, in
input order, numbered consecutively from 1; a dict result's entry embeds
its `text` value (followed by a newline) whenever that value is a
non-empty string, and a non-dict result's entry is its interpolated
value. -/
theorem digest_numbered_entries (query keywords : String) (top_k : Int)
    (status : Nat) (rs : List Json) (count : Json)
    (hs : is2xx status = true) (hc : pyEqZero count = false) :
    (gather_relevant_user_knowledge query keywords top_k
        (fun _ => RemoteOutcome.response status
          (Except.ok (Json.obj [("results", Json.arr rs), ("count", count)])))
      = Except.ok (foundHeaderFor count ++ String.join (formatAll 1 rs)))
  ∧ (formatAll 1 rs).length = rs.length
  ∧ (∀ i, i < rs.length → ∃ rest,
      (formatAll 1 rs).getD i "" = toString (i + 1) ++ ". " ++ rest)
  ∧ (∀ i, i < rs.length → ∀ kvs t, rs.getD i Json.null = Json.obj kvs →
      objLookup kvs "text" = some (Json.str t) → t ≠ "" →
      ∃ pre post, (formatAll 1 rs).getD i "" = pre ++ ((t ++ "\n") ++ post))
  ∧ (∀ i, i < rs.length → (∀ kvs, rs.getD i Json.null ≠ Json.obj kvs) →
      (formatAll 1 rs).getD i ""
        = toString (i + 1) ++ ". " ++ pyStr (rs.getD i Json.null) ++ "\n" ++ "\n") := by
  have hresp := gatherCall_response_ok query keywords top_k status
    (Json.obj [("results", Json.arr rs), ("count", count)]) hs
  have h1 : objLookup [("results", Json.arr rs), ("count", count)] "results"
      = some (Json.arr rs) := rfl
  have h2 : objLookup [("results", Json.arr rs), ("count", count)] "count"
      = some count := rfl
  refine ⟨?_, formatAll_length 1 rs, ?_, ?_, ?_⟩
  · simp [gather_relevant_user_knowledge, gatherBody, hresp, pyGet, h1, h2, hc, pyIter,
      Bind.bind, Except.bind]
  · intro i hi
    rw [formatAll_getD 1 i rs hi, Nat.add_comm 1 i]
    exact formatResult_head (i + 1) _
  · intro i hi kvs t hobj htext ht
    have htt : pyTruthy (Json.str t) = true := by
      simp [pyTruthy]
      exact ht
    rw [formatAll_getD 1 i rs hi, Nat.add_comm 1 i, hobj, formatResult_obj (i + 1) kvs, htext]
    simp only [Option.getD_some, htt, if_true, pyStr]
    exact ⟨_, _, rfl⟩
  · intro i hi hnobj
    rw [formatAll_getD 1 i rs hi, Nat.add_comm 1 i]
    exact formatResult_scalar (i + 1) (rs.getD i Json.null) hnobj

/-- C7 witness: a concrete 200 response with `count = 2`, one dict result
carrying `text` and one plain string result, yields the fully evaluated
two-entry digest. -/
theorem digest_numbered_entries_witness :
    is2xx 200 = true
  ∧ pyEqZero (Json.num 2) = false
  ∧ gather_relevant_user_knowledge "q" "kw" 5
        (fun _ => RemoteOutcome.response 200
          (Except.ok (Json.obj
            [("results", Json.arr [Json.obj [("text", Json.str "alpha")], Json.str "beta"]),
             ("count", Json.num 2)])))
      = Except.ok "Found 2 relevant results in your knowledge vault:\n\n1. alpha\n\n2. beta\n\n" :=
  ⟨by decide, by decide,
   ((digest_numbered_entries "q" "kw" 5 200
      [Json.obj [("text", Json.str "alpha")], Json.str "beta"] (Json.num 2)
      (by decide) (by decide)).1).trans (by rfl)⟩

/-! ## Claim C4 -/

/-- C4 counterexample: a concrete invocation that proceeds to the remote
call (a 200 response comes back) sends the outbound request with only the
`Accept` and `Content-Type` headers: no `Authorization` header is
attached, contrary to the claim. -/
theorem outbound_request_no_auth_header :
    (gatherCall "q" "kw" 10
        (fun _ => RemoteOutcome.response 200 (Except.ok (Json.obj [])))).request
      = some (searchRequest "q" "kw" 10)
  ∧ (gatherCall "q" "kw" 10
        (fun _ => RemoteOutcome.response 200 (Except.ok (Json.obj [])))).response
      = some (Json.obj [])
  ∧ (searchRequest "q" "kw" 10).headers.any (fun h => h.fst == "Authorization") = false :=
  ⟨rfl, rfl, by decide⟩

/-- C4 (amended): every invocation sends exactly one outbound request: a
POST to the search endpoint whose JSON payload is exactly
`(query, keywords, top_k)` with the caller's values and whose timeout is
30, with `Accept`/`Content-Type` headers only and no `Authorization`
header. -/
theorem outbound_request_shape (query keywords : String) (top_k : Int)
    (net : HttpRequest → RemoteOutcome) :
    (gatherCall query keywords top_k net).request = some (searchRequest query keywords top_k)
  ∧ (searchRequest query keywords top_k).method = "POST"
  ∧ (searchRequest query keywords top_k).url = searchEndpoint
  ∧ (searchRequest query keywords top_k).body
      = Json.obj [("query", Json.str query), ("keywords", Json.str keywords),
                  ("top_k", Json.num top_k)]
  ∧ (searchRequest query keywords top_k).timeout = 30
  ∧ (searchRequest query keywords top_k).headers = fonduHeaders
  ∧ fonduHeaders.any (fun h => h.fst == "Authorization") = false := by
  refine ⟨?_, rfl, rfl, rfl, rfl, rfl, by decide⟩
  rw [gatherCall_eq]
  exact apiOutcome_request _ _

/-! ## Claims about the spec-modelled latest revision -/

/-- C1: the resolver returns the value of the highest-priority present
source, in the order explicit > environment > config file > token file,
and returns absent exactly when all four sources are absent. -/
theorem credential_resolver_precedence (explicitTok : Option String)
    (envLookup readConfig readTokenFile : String → Option String) :
    (∀ t, explicitSource explicitTok = some t →
      resolveToken explicitTok envLookup readConfig readTokenFile = some t)
  ∧ (explicitSource explicitTok = none → ∀ t, envToken envLookup = some t →
      resolveToken explicitTok envLookup readConfig readTokenFile = some t)
  ∧ (explicitSource explicitTok = none → envToken envLookup = none →
      ∀ t, configSource readConfig = some t →
      resolveToken explicitTok envLookup readConfig readTokenFile = some t)
  ∧ (explicitSource explicitTok = none → envToken envLookup = none →
      configSource readConfig = none →
      resolveToken explicitTok envLookup readConfig readTokenFile
        = tokenFileSource readTokenFile)
  ∧ (resolveToken explicitTok envLookup readConfig readTokenFile = none ↔
      explicitSource explicitTok = none ∧ envToken envLookup = none ∧
      configSource readConfig = none ∧ tokenFileSource readTokenFile = none) := by
  refine ⟨?_, ?_, ?_, ?_, ?_⟩
  · intro t h
    simp [resolveToken, h]
  · intro h1 t h
    simp [resolveToken, h1, h]
  · intro h1 h2 t h
    simp [resolveToken, h1, h2, h]
  · intro h1 h2 h3
    simp [resolveToken, h1, h2, h3]
  · constructor
    · intro h
      rcases he : explicitSource explicitTok with _ | t
      · rcases hv : envToken envLookup with _ | t
        · rcases hcf : configSource readConfig with _ | t
          · refine ⟨rfl, rfl, rfl, ?_⟩
            simpa [resolveToken, he, hv, hcf] using h
          · exact absurd h (by simp [resolveToken, he, hv, hcf])
        · exact absurd h (by simp [resolveToken, he, hv])
      · exact absurd h (by simp [resolveToken, he])
    · rintro ⟨h1, h2, h3, h4⟩
      simp [resolveToken, h1, h2, h3, h4]

/-- C1 witness: with no explicit token, empty environment and no token
files, a token found in the first config-file path is returned. -/
theorem credential_resolver_precedence_witness :
    resolveToken none (fun _ => none)
        (fun p => if p == "./config.yaml" then some "cfg-token" else none)
        (fun _ => none)
      = some "cfg-token" :=
  (credential_resolver_precedence none (fun _ => none)
      (fun p => if p == "./config.yaml" then some "cfg-token" else none)
      (fun _ => none)).2.2.1 rfl rfl "cfg-token" rfl

/-- C2: refuted on the source. The checked-out tool consults no
credential source at all: invoked with no explicit token, an empty
environment and no config or token files, it still issues the outbound
POST (the network call happens) and, when that call fails, returns the
generic transport-failure string — there is no instructional
configuration-error string anywhere in the code. -/
theorem search_tool_calls_network_without_token :
    (gatherCall "q" "" 10 (fun _ => RemoteOutcome.exn "ConnectError")).request
      = some (searchRequest "q" "" 10)
  ∧ gather_relevant_user_knowledge "q" "" 10 (fun _ => RemoteOutcome.exn "ConnectError")
      = Except.ok "Error: Failed to get a response from the knowledge vault API." :=
  ⟨rfl, rfl⟩

/-- C3: a profile request with no authorization header yields 401, with
the `WWW-Authenticate` header carrying the JSON-encoded challenge
payload, a body whose `challenge` field is that (non-empty) payload, and
a second such request yields a distinct challenge identifier. -/
theorem profile_no_auth_challenge (st : SessionStore) (s1 s2 : String) :
    ((profileNoAuth st s1).1).status = 401
  ∧ ((profileNoAuth (profileNoAuth st s1).2 s2).1).status = 401
  ∧ bodyChallenge (profileNoAuth st s1).1 = some (profileChallenge st.nextId s1)
  ∧ pyTruthy (profileChallenge st.nextId s1) = true
  ∧ ((profileNoAuth st s1).1).headers
      = [("WWW-Authenticate", "did_challenge " ++ jsonEncode (profileChallenge st.nextId s1))]
  ∧ challengeIdOf (profileNoAuth st s1).1
      ≠ challengeIdOf (profileNoAuth (profileNoAuth st s1).2 s2).1 := by
  refine ⟨rfl, rfl, rfl, rfl, rfl, ?_⟩
  have h1 : challengeIdOf (profileNoAuth st s1).1
      = some (Json.num (Int.ofNat st.nextId)) := rfl
  have h2 : challengeIdOf (profileNoAuth (profileNoAuth st s1).2 s2).1
      = some (Json.num (Int.ofNat (st.nextId + 1))) := rfl
  rw [h1, h2]
  intro h
  simp only [Option.some.injEq, Json.num.injEq, Int.ofNat.injEq] at h
  omega
